import Mathlib

/-!
Verification development for the `vinyl` record-identity resolution engine.

The Python source is shallowly embedded:
* `src/app/services/cover_best_match.py` lives in namespace `cover_best_match`;
* the duplicated logic of `src/app/main.py` lives in namespace `app_main`.

JSON dictionaries become structures with `Option`-typed fields (absent key =
`none`); Python string truthiness (`if s:`) is the test `s ≠ ""`; integer
truthiness is the test `≠ 0`; machine floats of the confidence rule are
modelled as rationals.  Network calls (`discogs_search`, `discogs_release`,
`_http_get`, `discogs_release_details`) are passed in as oracle parameters of
type `α → Except Unit β`, the `.error` case standing for a raised exception.
-/

/-- `QuerySpec` parameter value: Discogs query params are strings or ints. -/
inductive QVal
  | str (s : String)
  | int (n : Int)
deriving DecidableEq

/-- A `QuerySpec`: Discogs search parameters in dict insertion order
(keys within one spec are pairwise distinct). -/
abbrev Spec := List (String × QVal)

/-- One entry of a Discogs `formats` list: `{name, descriptions}`. -/
structure Fmt where
  name : Option String := none
  descriptions : Option (List String) := none
deriving DecidableEq

/-- One entry of a release detail's `artists` list. -/
structure ArtistRef where
  name : Option String := none
deriving DecidableEq

/-- A Discogs candidate: search result item or release detail.  Only the keys
the embedded functions read are modelled; of an `images` entry only the list's
emptiness is ever consumed, hence `List Unit`. -/
structure Item where
  id : Option Int := none
  country : Option String := none
  format : Option (List String) := none
  formats : Option (List Fmt) := none
  artist : Option String := none
  title : Option String := none
  year : Option Int := none
  artists : Option (List ArtistRef) := none
  images : Option (List Unit) := none
deriving DecidableEq

/-- A local record row (`records` table / request dict).  `year` is an SQLite
INTEGER column, hence `Option Int`. -/
structure RecordRow where
  artist : Option String := none
  title : Option String := none
  year : Option Int := none
  label : Option String := none
  catalog_number : Option String := none
  barcode : Option String := none
  country : Option String := none
  discogs_id : Option Int := none
  discogs_release_id : Option Int := none
deriving DecidableEq

/-- Python substring test `needle in hay` on the character lists. -/
def strIn (needle hay : String) : Bool :=
  go needle.data hay.data
where
  go (n : List Char) : List Char → Bool
    | [] => n.isEmpty
    | c :: t => n.isPrefixOf (c :: t) || go n t

/-- `str.lower()` (character-list implementation, so that the kernel can
evaluate it; ASCII-equivalent to Python's). -/
def pyLower (s : String) : String := ⟨s.data.map Char.toLower⟩

/-- `str.upper()` (character-list implementation). -/
def pyUpper (s : String) : String := ⟨s.data.map Char.toUpper⟩

/-- `str.strip()`: drop leading and trailing whitespace. -/
def pyStrip (s : String) : String :=
  ⟨((s.data.dropWhile Char.isWhitespace).reverse.dropWhile Char.isWhitespace).reverse⟩

/-- `sep.join(parts)`: one separator between consecutive parts. -/
def pyJoin (sep : String) : List String → String
  | [] => ""
  | [x] => x
  | x :: y :: t => x ++ sep ++ pyJoin sep (y :: t)

/-- `_nz(v)`: `"" if v is None else str(v)` then `.strip()`. -/
def _nz (v : Option String) : String := pyStrip (v.getD "")

/-- `_nz` applied to an integer-or-missing JSON value. -/
def _nzInt (v : Option Int) : String :=
  match v with
  | none => ""
  | some n => toString n

/-- `str(v or "")` for an integer-or-missing value: `0` and `None` are falsy. -/
def strOrEmptyInt (v : Option Int) : String :=
  match v with
  | none => ""
  | some n => if n = 0 then "" else toString n

/-- Python truthiness of an optional string (`None` and `""` are falsy). -/
def truthyStr : Option String → Option String
  | none => none
  | some s => if s = "" then none else some s

/-- Python truthiness of an optional int (`None` and `0` are falsy). -/
def truthyInt : Option Int → Option Int
  | none => none
  | some n => if n = 0 then none else some n

/-- Stable insert (helper of `ssortBy`). -/
def insertBy (le : α → α → Bool) (x : α) : List α → List α
  | [] => [x]
  | y :: ys => if le x y then x :: y :: ys else y :: insertBy le x ys

/-- Stable insertion sort.  Python's `list.sort` is stable, and a stable sort's
output is uniquely determined by the ordering, so this models
`best.sort(key=..., reverse=True)` exactly when `le` is the corresponding
total preorder. -/
def ssortBy (le : α → α → Bool) : List α → List α
  | [] => []
  | x :: xs => insertBy le x (ssortBy le xs)

namespace cover_best_match

/-- `country_pref` of `cover_best_match.py`: `(record.country or "").strip()`,
defaulting to `"US"` (not upper-cased in this file). -/
def country_pref (record : RecordRow) : String :=
  let c := pyStrip (record.country.getD "")
  if c = "" then "US" else c

/-- `make_base_params`: `{type: "release", country: country_pref, format: "LP"}`. -/
def make_base_params (record : RecordRow) : Spec :=
  [("type", QVal.str "release"),
   ("country", QVal.str (country_pref record)),
   ("format", QVal.str "LP")]

/-- `_fmt_list`: search-style `format` list lower-cased, else `formats`
names (skipped when empty, via `if name:`) plus lower-cased descriptions. -/
def _fmt_list (item : Item) : List String :=
  match item.format with
  | some l => l.map pyLower
  | none =>
    (item.formats.getD []).flatMap fun f =>
      (let name := pyLower (f.name.getD "")
       if name = "" then [] else [name]) ++
      (f.descriptions.getD []).map pyLower

/-- `candidate_allowed`: country must equal `required_country` exactly
(case-sensitive here) and the format tokens must contain `"lp"`. -/
def candidate_allowed (item : Item) (required_country : String) : Bool :=
  let c := _nz item.country
  if c ≠ required_country then false
  else (_fmt_list item).contains "lp"

/-- `record.get("year")` guarded by `str(record.get("year") or "").isdigit()`:
`None`, `0` (falsy) and negatives (`-` is not a digit) are dropped. -/
def yearParam (year : Option Int) : Option Int :=
  match year with
  | none => none
  | some n => if 0 < n then some n else none

/-- `if year: p["year"] = year`. -/
def yearKV (year : Option Int) : Spec :=
  match year with
  | none => []
  | some y => [("year", QVal.int y)]

/-- The barcode tier of `discogs_query_plan`. -/
def barcode_spec (record : RecordRow) : Spec :=
  make_base_params record ++ [("barcode", QVal.str (_nz record.barcode))] ++
    yearKV (yearParam record.year)

/-- The catalog-number tier of `discogs_query_plan`. -/
def catno_spec (record : RecordRow) : Spec :=
  make_base_params record ++ [("catno", QVal.str (_nz record.catalog_number))] ++
    (if _nz record.label ≠ "" then [("label", QVal.str (_nz record.label))] else []) ++
    (if _nz record.artist ≠ "" then [("artist", QVal.str (_nz record.artist))] else []) ++
    yearKV (yearParam record.year)

/-- The structured-text tier of `discogs_query_plan`. -/
def structured_spec (record : RecordRow) : Spec :=
  make_base_params record ++
    (if _nz record.artist ≠ "" then [("artist", QVal.str (_nz record.artist))] else []) ++
    (if _nz record.title ≠ "" then [("release_title", QVal.str (_nz record.title))] else []) ++
    yearKV (yearParam record.year)

/-- The loose-text tier: `q = " ".join([artist, title]).strip()`. -/
def loose_spec (record : RecordRow) : Spec :=
  make_base_params record ++
    [("q", QVal.str (pyStrip (_nz record.artist ++ " " ++ _nz record.title)))] ++
    yearKV (yearParam record.year)

/-- The plan list before deduplication (the dead local `q_struct` of the
source is not modelled). -/
def raw_plan (record : RecordRow) : List Spec :=
  (if _nz record.barcode ≠ "" then [barcode_spec record] else []) ++
  (if _nz record.catalog_number ≠ "" then [catno_spec record] else []) ++
  (if _nz record.artist ≠ "" ∨ _nz record.title ≠ "" then [structured_spec record] else []) ++
  (if _nz record.artist ≠ "" ∨ _nz record.title ≠ "" then [loose_spec record] else [])

/-- `tuple(sorted(d.items()))`: keys within a spec are distinct, so Python
sorts by key alone. -/
def specKey (p : Spec) : Spec :=
  ssortBy (fun a b => !(decide (b.1 < a.1))) p

/-- Deduplication loop of `discogs_query_plan` (first-seen order kept). -/
def dedupGo : List Spec → List Spec → List Spec
  | [], _ => []
  | d :: rest, seen =>
    if seen.contains (specKey d) then dedupGo rest seen
    else d :: dedupGo rest (specKey d :: seen)

/-- `discogs_query_plan`: the four tiers, most precise first, deduplicated. -/
def discogs_query_plan (record : RecordRow) : List Spec :=
  dedupGo (raw_plan record) []

/-- `score_candidate` of `cover_best_match.py`.  Each accumulator block of the
source is one addend. -/
def score_candidate (item : Item) (record : RecordRow) : Nat :=
  let artist := pyLower (_nz record.artist)
  let title := pyLower (_nz record.title)
  let year := strOrEmptyInt record.year
  let cand_artist := pyLower (_nz item.artist)
  let cand_title := pyLower (_nz item.title)
  let cand_year := _nzInt item.year
  let s1 : Nat :=
    if cand_artist ≠ "" ∧ artist ≠ "" ∧ cand_artist = artist then 25
    else if cand_artist ≠ "" ∧ artist ≠ "" ∧ strIn artist cand_artist then 12
    else 0
  let s2 : Nat :=
    if cand_title ≠ "" ∧ title ≠ "" ∧ cand_title = title then 25
    else if cand_title ≠ "" ∧ title ≠ "" ∧ strIn title cand_title then 12
    else 0
  let s3 : Nat := if cand_year ≠ "" ∧ year ≠ "" ∧ cand_year = year then 10 else 0
  let s4 : Nat := if item.images.getD [] ≠ [] then 8 else 0
  let s5 : Nat := if (_fmt_list item).contains "album" then 4 else 0
  s1 + s2 + s3 + s4 + s5

/-- `record.get("discogs_id") or record.get("discogs_release_id")` followed by
`if rel_id:` — the first truthy id, if any. -/
def relIdOf (record : RecordRow) : Option Int :=
  match truthyInt record.discogs_id with
  | some n => some n
  | none => truthyInt record.discogs_release_id

/-- One step of the resolve loop of `fetch_best_cover_for_record`: fetch the
full release; on any exception keep the search item as fallback; a resolved
release that fails `candidate_allowed` is dropped.  (`int(None)` raises inside
the `try`, so an id-less item also falls back to itself.) -/
def resolveOne (release : Int → Except Unit Item) (req : String) (it : Item) : List Item :=
  match it.id with
  | none => [it]
  | some rid =>
    match release rid with
    | .error _ => [it]
    | .ok rel => if candidate_allowed rel req then [rel] else []

/-- The `resolved` list built from a list of allowed search items. -/
def resolveList (release : Int → Except Unit Item) (req : String) (l : List Item) : List Item :=
  l.flatMap (resolveOne release req)

/-- `max(resolved, key=lambda x: score_candidate(x, record))`: Python's `max`
keeps the first element on ties. -/
def pickBest (record : RecordRow) : List Item → Option Item
  | [] => none
  | h :: t =>
    some (t.foldl
      (fun acc x =>
        if score_candidate acc record < score_candidate x record then x else acc) h)

/-- What one productive tier selects: resolve the first 8 allowed candidates
(`allowed[:8]`) and take the score maximiser. -/
def tier_selection (release : Int → Except Unit Item) (req : String)
    (record : RecordRow) (allowed : List Item) : Option Item :=
  pickBest record (resolveList release req (allowed.take 8))

/-- The search loop of `fetch_best_cover_for_record`.  A failing
`discogs_search` is skipped; an empty `allowed` list continues with the next
tier; `.error` models the uncaught `ValueError` of `max([])` (every resolved
release of the tier failed the filter). -/
def searchLoop (search : Spec → Except Unit (List Item))
    (release : Int → Except Unit Item) (req : String) (record : RecordRow) :
    List Spec → Except Unit (Option Item)
  | [] => .ok none
  | p :: rest =>
    match search p with
    | .error _ => searchLoop search release req record rest
    | .ok results =>
      let allowed := results.filter (fun it => candidate_allowed it req)
      if allowed.isEmpty then searchLoop search release req record rest
      else
        match tier_selection release req record allowed with
        | none => .error ()
        | some best => .ok (some best)

/-- `fetch_best_cover_for_record`: explicit-id shortcut, then the tiered
search.  `search p` models `discogs_search(params)["results"] or []`. -/
def fetch_best_cover_for_record (search : Spec → Except Unit (List Item))
    (release : Int → Except Unit Item) (record : RecordRow) :
    Except Unit (Option Item) :=
  let req := country_pref record
  let viaSearch := searchLoop search release req record (discogs_query_plan record)
  match relIdOf record with
  | none => viaSearch
  | some rid =>
    match release rid with
    | .error _ => viaSearch
    | .ok data => if candidate_allowed data req then .ok (some data) else viaSearch

end cover_best_match

namespace app_main

/-- `country_pref` of `main.py`: `_nz(row.country).upper() or "US"`
(upper-cased, unlike the `cover_best_match` variant). -/
def country_pref (row : RecordRow) : String :=
  let c := pyUpper (_nz row.country)
  if c = "" then "US" else c

/-- `_fmt_tokens_from_release_detail`: the name token is appended even when
empty (no `if name:` guard here), then the lower-cased descriptions. -/
def _fmt_tokens_from_release_detail (detail : Item) : List String :=
  (detail.formats.getD []).flatMap fun f =>
    pyLower (_nz f.name) :: (f.descriptions.getD []).map pyLower

/-- `candidate_allowed_release`: `"lp"` token required; the country check is
a case-insensitive equality, applied only when `required_country` is truthy,
and an absent country (`"" != required.upper()`) fails it. -/
def candidate_allowed_release (detail : Item) (required_country : Option String) : Bool :=
  let tokens := _fmt_tokens_from_release_detail detail
  if ¬ tokens.contains "lp" then false
  else
    match truthyStr required_country with
    | none => true
    | some rc => if pyUpper (_nz detail.country) ≠ pyUpper rc then false else true

/-- `candidate_allowed_search`: substring test for `"lp"` or `"vinyl"` on the
space-joined lower-cased `format` list; the country check is skipped when the
candidate's country is empty (`if c and c != ...`). -/
def candidate_allowed_search (item : Item) (required_country : Option String) : Bool :=
  let fmt := pyLower (pyJoin " " (item.format.getD []))
  if ¬ strIn "lp" fmt ∧ ¬ strIn "vinyl" fmt then false
  else
    match truthyStr required_country with
    | none => true
    | some rc =>
      let c := pyUpper (_nz item.country)
      if c ≠ "" ∧ c ≠ pyUpper rc then false else true

/-- `discogs_query_plan_for_row`: loose-text tier(s) first, then catalogue
number, then barcode (note the order, inverse of `discogs_query_plan`). -/
def discogs_query_plan_for_row (row : RecordRow) : List Spec :=
  let artist := _nz row.artist
  let title := _nz row.title
  let year := _nzInt row.year
  let cat := _nz row.catalog_number
  let bc := _nz row.barcode
  let base_q := pyStrip (artist ++ " " ++ title)
  (if base_q ≠ "" then
    [[("q", QVal.str base_q), ("type", QVal.str "release"),
      ("format", QVal.str "LP"), ("per_page", QVal.int 50)]] ++
    (if year ≠ "" then
      [[("q", QVal.str (base_q ++ " " ++ year)), ("type", QVal.str "release"),
        ("format", QVal.str "LP"), ("per_page", QVal.int 50)]]
     else [])
   else []) ++
  (if cat ≠ "" then
    [[("catno", QVal.str cat), ("type", QVal.str "release"), ("per_page", QVal.int 50)]]
   else []) ++
  (if bc ≠ "" then
    [[("barcode", QVal.str bc), ("type", QVal.str "release"), ("per_page", QVal.int 50)]]
   else [])

/-- The inner `score_candidate` closure of `discogs_fetch_and_score_candidates`
(row attributes are the captured variables).  A substring hit on the joined
artist names scores the same 30 as an exact hit; the year bonus is `±1`. -/
def score_candidate (detail : Item) (row : RecordRow) : Nat :=
  let artist := pyLower (_nz row.artist)
  let title := pyLower (_nz row.title)
  let country := country_pref row
  let artists_detail :=
    pyLower (pyJoin ", " ((detail.artists.getD []).map (fun a => _nz a.name)))
  let s1 : Nat := if artist ≠ "" ∧ strIn artist artists_detail then 30 else 0
  let s2 : Nat := if title ≠ "" ∧ strIn title (pyLower (_nz detail.title)) then 30 else 0
  let s3 : Nat :=
    if country ≠ "" ∧ pyUpper (_nz detail.country) = pyUpper country then 10 else 0
  let s4 : Nat :=
    match row.year, detail.year with
    | some a, some b => if (a - b).natAbs ≤ 1 then 10 else 0
    | _, _ => 0
  s1 + s2 + s3 + s4

/-- The search response dict: `js.get("results", []) or []`. -/
structure SearchJs where
  results : Option (List Item) := none
deriving DecidableEq

/-- Descending stable sort on scores: `best.sort(key=lambda x: x[1], reverse=True)`. -/
def sortScoredDesc (l : List (Int × Nat)) : List (Int × Nat) :=
  ssortBy (fun a b => decide (b.2 ≤ a.2)) l

/-- The per-tier inner loop of `discogs_fetch_and_score_candidates`: filter by
`candidate_allowed_search`, drop falsy ids, fetch the detail (any exception
skips the item), filter by `candidate_allowed_release`, then score. -/
def process_tier (details : Int → Except Unit Item) (country : String)
    (row : RecordRow) (items : List Item) : List (Int × Nat) :=
  items.flatMap fun item =>
    if ¬ candidate_allowed_search item (some country) then []
    else
      match truthyInt item.id with
      | none => []
      | some rid =>
        match details rid with
        | .error _ => []
        | .ok detail =>
          if ¬ candidate_allowed_release detail (some country) then []
          else [(rid, score_candidate detail row)]

/-- The tier loop of `discogs_fetch_and_score_candidates`.  `_http_get` is NOT
wrapped in a `try` here, so a failing search propagates (`.error`); the loop
breaks after the first tier that accumulated any scored candidate. -/
def dfasc_loop (http : Spec → Except Unit SearchJs) (details : Int → Except Unit Item)
    (row : RecordRow) (country : String) :
    List Spec → List (Int × Nat) → Except Unit (List (Int × Nat))
  | [], best => .ok (sortScoredDesc best)
  | p :: rest, best =>
    match http p with
    | .error e => .error e
    | .ok js =>
      let best' := best ++ process_tier details country row (js.results.getD [])
      if best' ≠ [] then .ok (sortScoredDesc best')
      else dfasc_loop http details row country rest best'

/-- `discogs_fetch_and_score_candidates`: `(release_id, score)` pairs of the
first productive tier, sorted by score descending. -/
def discogs_fetch_and_score_candidates (http : Spec → Except Unit SearchJs)
    (details : Int → Except Unit Item) (row : RecordRow) :
    Except Unit (List (Int × Nat)) :=
  dfasc_loop http details row (country_pref row) (discogs_query_plan_for_row row) []

/-- The body of the `/api/cover-match` response that the confidence rule
feeds on. -/
structure MatchResult where
  best_id : Int
  best_score : ℚ
  second_best_score : ℚ
  gap_to_second : ℚ
  confident : Bool
deriving DecidableEq

/-- Descending stable sort of `(record_id, similarity)` pairs. -/
def sortSimDesc (l : List (Int × ℚ)) : List (Int × ℚ) :=
  ssortBy (fun a b => decide (b.2 ≤ a.2)) l

/-- The matching core of `api_cover_match`.  The store is the output of
`get_all_cover_embeddings`; `sim` stands for `cosine_similarity query ·`
(its float arithmetic is kept opaque; similarities are rationals).  The two
HTTP 404s — empty store, and no record with a non-empty vector list — are the
`.error` cases. -/
def cover_match (sim : List ℚ → List ℚ → ℚ) (query : List ℚ)
    (store : List (Int × List (List ℚ))) : Except Unit MatchResult :=
  if store.isEmpty then .error ()
  else
    let scored := store.flatMap fun rv =>
      match (rv.2.map (fun v => sim query v)).max? with
      | none => []
      | some m => [(rv.1, m)]
    match sortSimDesc scored with
    | [] => .error ()
    | (best_id, best_score) :: rest =>
      let second_best_score := match rest with | [] => 0 | (_, s) :: _ => s
      let gap := best_score - second_best_score
      let confident :=
        decide ((4 : ℚ)/5 ≤ best_score) && decide ((1 : ℚ)/10 ≤ gap)
      .ok ⟨best_id, best_score, second_best_score, gap, confident⟩

/-- What one row of the rebuild loop does, once the oracles have spoken:
no usable cover bytes; embedding stored fine; or a per-record exception from
`compute_image_embedding`/the insert (the generic `except Exception` arm).
The dependencies-missing `HTTPException` aborts the whole request and is not a
per-record outcome, so it is outside this model. -/
inductive RowOutcome
  | noImage
  | okEmbed
  | embedErr
deriving DecidableEq

/-- The counting loop of `api_rebuild_cover_embeddings` (the limit check sits
at the top of each iteration and compares against `processed`). -/
def rebuild_loop (limit : Option Nat) :
    List RowOutcome → Nat → Nat → Nat → Nat × Nat × Nat
  | [], p, s, e => (p, s, e)
  | r :: rest, p, s, e =>
    if (match limit with | some l => decide (l ≤ p) | none => false) then (p, s, e)
    else
      match r with
      | .noImage => rebuild_loop limit rest p (s + 1) e
      | .okEmbed => rebuild_loop limit rest (p + 1) s e
      | .embedErr => rebuild_loop limit rest p s (e + 1)

/-- `api_rebuild_cover_embeddings`: `{processed, skipped_no_image, errors}`. -/
def api_rebuild_cover_embeddings (limit : Option Nat) (rows : List RowOutcome) :
    Nat × Nat × Nat :=
  rebuild_loop limit rows 0 0 0

end app_main

/-! ## Concrete fixtures used by counterexamples and witnesses -/

/-- A search hit passing the `cover_best_match` filter, with no further
scoring signal. -/
def cx_plain : Item := { country := some "US", format := some ["LP"] }

/-- Like `cx_plain` but with an image, so it scores 8 instead of 0. -/
def cx_img : Item := { country := some "US", format := some ["LP"], images := some [()] }

/-- A record whose query plan is nonempty (artist present). -/
def cx_rec : RecordRow := { artist := some "x", country := some "US" }

/-- Nine allowed candidates: the high scorer sits at position 9, beyond the
`allowed[:8]` cap. -/
def cx_items9 : List Item := List.replicate 8 cx_plain ++ [cx_img]

/-- A search oracle returning the nine candidates for every query. -/
def cx_search : Spec → Except Unit (List Item) := fun _ => .ok cx_items9

/-- A release-detail oracle that always raises. -/
def cx_releaseFail : Int → Except Unit Item := fun _ => .error ()

/-- Row with a barcode and an artist (so the loose-text tier exists). -/
def cx_row2 : RecordRow := { artist := some "a", barcode := some "123" }

/-- A search candidate reporting no country at all. -/
def cx_itemNoCountry : Item := { format := some ["LP"] }

/-- A candidate whose format-token set is `{vinyl}` (no `lp` token). -/
def cx_itemVinyl : Item := { format := some ["vinyl"], country := some "US" }

/-- Release detail whose joined artist string strictly contains `"abc"`. -/
def cx_detailSub : Item := { artists := some [{ name := some "abcd" }] }

/-- The same detail with the artist changed to exactly `"abc"`. -/
def cx_detailExact : Item := { artists := some [{ name := some "abc" }] }

/-- The record both details are scored against. -/
def cx_rowA : RecordRow := { artist := some "abc" }

/-- Candidate with year 1958. -/
def cx_item1958 : Item := { year := some 1958 }

/-- Candidate with year 1959. -/
def cx_item1959 : Item := { year := some 1959 }

/-- Record with year 1959. -/
def cx_rec1959 : RecordRow := { year := some 1959 }

/-- Similarity oracle for the cover-match witness: score 9/10 for the stored
vector `[1]`, 0 otherwise. -/
def cx_sim : List ℚ → List ℚ → ℚ := fun _ v => if v = [1] then (9 : ℚ)/10 else 0

/-- A two-record embedding store. -/
def cx_store : List (Int × List (List ℚ)) := [(1, [[1]]), (2, [[0]])]

/-- Ten rebuild rows: 6 embedded, 3 without image, 1 raising. -/
def cx_scenario10 : List app_main.RowOutcome :=
  [.okEmbed, .noImage, .okEmbed, .embedErr, .okEmbed,
   .noImage, .okEmbed, .okEmbed, .noImage, .okEmbed]

/-- Search oracle that always raises (models a Discogs outage). -/
def cx_searchFail : Spec → Except Unit (List Item) := fun _ => .error ()

/-- `_http_get` oracle that always raises. -/
def cx_httpFail : Spec → Except Unit app_main.SearchJs := fun _ => .error ()

/-- Row for the `app_main` oracle fixtures (only an artist). -/
def cx_rowQ : RecordRow := { artist := some "a" }

/-- `_http_get` oracle returning one allowed search item with id 1. -/
def cx_httpOne : Spec → Except Unit app_main.SearchJs :=
  fun _ => .ok { results := some [{ id := some 1, country := some "US", format := some ["LP"] }] }

/-- Detail oracle returning an allowed LP release from the US. -/
def cx_detailsOne : Int → Except Unit Item :=
  fun _ => .ok { formats := some [{ name := some "LP" }], country := some "US" }

/-! ## Helper lemmas -/

/-- The `max(…, key=f)` fold picks an element of the list. -/
theorem pickFold_mem (f : α → Nat) :
    ∀ (t : List α) (h : α),
      t.foldl (fun acc x => if f acc < f x then x else acc) h ∈ h :: t := by
  intro t
  induction t with
  | nil => intro h; simp
  | cons y ys ih =>
    intro h
    simp only [List.foldl]
    rcases List.mem_cons.mp (ih (if f h < f y then y else h)) with h1 | h2
    · rw [h1]
      split
      · exact List.mem_cons_of_mem _ (List.mem_cons_self _ _)
      · exact List.mem_cons_self _ _
    · exact List.mem_cons_of_mem _ (List.mem_cons_of_mem _ h2)

/-- The `max(…, key=f)` fold dominates every element of the list. -/
theorem pickFold_le (f : α → Nat) :
    ∀ (t : List α) (h : α), ∀ x ∈ h :: t,
      f x ≤ f (t.foldl (fun acc x => if f acc < f x then x else acc) h) := by
  intro t
  induction t with
  | nil =>
    intro h x hx
    rcases List.mem_cons.mp hx with rfl | hx2
    · exact Nat.le_refl _
    · cases hx2
  | cons y ys ih =>
    intro h x hx
    simp only [List.foldl]
    by_cases hc : f h < f y
    · simp only [if_pos hc]
      have h3 := ih y y (List.mem_cons_self _ _)
      rcases List.mem_cons.mp hx with rfl | hx2
      · exact Nat.le_trans (Nat.le_of_lt hc) h3
      · rcases List.mem_cons.mp hx2 with rfl | hx3
        · exact h3
        · exact ih y x (List.mem_cons_of_mem _ hx3)
    · simp only [if_neg hc]
      have h3 := ih h h (List.mem_cons_self _ _)
      rcases List.mem_cons.mp hx with rfl | hx2
      · exact h3
      · rcases List.mem_cons.mp hx2 with rfl | hx3
        · exact Nat.le_trans (Nat.le_of_not_lt hc) h3
        · exact ih h x (List.mem_cons_of_mem _ hx3)

/-- `pickBest` returns a member of its input list. -/
theorem pickBest_mem {record : RecordRow} :
    ∀ {l : List Item} {c : Item}, cover_best_match.pickBest record l = some c → c ∈ l := by
  intro l c h
  cases l with
  | nil => cases h
  | cons x t =>
    simp only [cover_best_match.pickBest, Option.some.injEq] at h
    rw [← h]
    exact pickFold_mem (fun x => cover_best_match.score_candidate x record) t x

/-- `pickBest` returns a score maximiser of its input list. -/
theorem pickBest_max {record : RecordRow} :
    ∀ {l : List Item} {c : Item}, cover_best_match.pickBest record l = some c →
      ∀ x ∈ l, cover_best_match.score_candidate x record ≤
        cover_best_match.score_candidate c record := by
  intro l c h x hx
  cases l with
  | nil => cases h
  | cons y t =>
    simp only [cover_best_match.pickBest, Option.some.injEq] at h
    rw [← h]
    exact pickFold_le (fun x => cover_best_match.score_candidate x record) t y x hx

/-- Membership is preserved by `insertBy`. -/
theorem mem_insertBy (le : α → α → Bool) (y x : α) :
    ∀ (l : List α), x ∈ insertBy le y l ↔ x = y ∨ x ∈ l := by
  intro l
  induction l with
  | nil => simp [insertBy]
  | cons z zs ih =>
    simp only [insertBy]
    split
    · simp [List.mem_cons]
    · simp only [List.mem_cons, ih]
      tauto

/-- Membership is preserved by `ssortBy`. -/
theorem mem_ssortBy (le : α → α → Bool) (x : α) :
    ∀ (l : List α), x ∈ ssortBy le l ↔ x ∈ l := by
  intro l
  induction l with
  | nil => simp [ssortBy]
  | cons z zs ih =>
    simp only [ssortBy, mem_insertBy, List.mem_cons, ih]

/-- Sorting descending by a key puts a key maximiser first. -/
theorem ssort_desc_head_ge (k : α → Nat) :
    ∀ (l : List α) (p : α) (rest : List α),
      ssortBy (fun a b => decide (k b ≤ k a)) l = p :: rest → ∀ q ∈ l, k q ≤ k p := by
  intro l
  induction l with
  | nil => intro p rest h; cases h
  | cons z zs ih =>
    intro p rest h q hq
    simp only [ssortBy] at h
    cases hs : ssortBy (fun a b => decide (k b ≤ k a)) zs with
    | nil =>
      rw [hs] at h
      simp only [insertBy] at h
      injection h with h1 _
      rcases List.mem_cons.mp hq with rfl | hq2
      · rw [← h1]
      · exact absurd ((mem_ssortBy _ q zs).mpr hq2) (by rw [hs]; simp)
    | cons w ws =>
      rw [hs] at h
      simp only [insertBy] at h
      by_cases hc : k w ≤ k z
      · rw [if_pos (by simpa using hc)] at h
        injection h with h1 _
        rcases List.mem_cons.mp hq with rfl | hq2
        · rw [← h1]
        · rw [← h1]; exact Nat.le_trans (ih w ws hs q hq2) hc
      · rw [if_neg (by simpa using hc)] at h
        injection h with h1 _
        rcases List.mem_cons.mp hq with rfl | hq2
        · rw [← h1]; exact Nat.le_of_lt (Nat.lt_of_not_le hc)
        · rw [← h1]; exact ih w ws hs q hq2

/-- The tier loop of `discogs_fetch_and_score_candidates` only ever returns a
`sortScoredDesc` image. -/
theorem dfasc_loop_ok_sorted (http : Spec → Except Unit app_main.SearchJs)
    (details : Int → Except Unit Item) (row : RecordRow) (country : String) :
    ∀ (plan : List Spec) (best out : List (Int × Nat)),
      app_main.dfasc_loop http details row country plan best = .ok out →
      ∃ l, out = app_main.sortScoredDesc l := by
  intro plan
  induction plan with
  | nil =>
    intro best out h
    simp only [app_main.dfasc_loop] at h
    exact ⟨best, by injection h with h1; rw [h1]⟩
  | cons p rest ih =>
    intro best out h
    simp only [app_main.dfasc_loop] at h
    cases hh : http p with
    | error e => rw [hh] at h; cases h
    | ok js =>
      rw [hh] at h
      dsimp only at h
      split at h
      · exact ⟨_, by injection h with h1; rw [h1]⟩
      · exact ih _ out h

/-- `searchLoop` returns `none` when every tier raises or yields no allowed
candidate. -/
theorem searchLoop_nothing (search : Spec → Except Unit (List Item))
    (release : Int → Except Unit Item) (req : String) (record : RecordRow) :
    ∀ (l : List Spec),
      (∀ p ∈ l,
        match search p with
        | .error _ => True
        | .ok results =>
          results.filter (fun it => cover_best_match.candidate_allowed it req) = []) →
      cover_best_match.searchLoop search release req record l = .ok none := by
  intro l
  induction l with
  | nil => intro _; rfl
  | cons p rest ih =>
    intro hall
    have hp := hall p (List.mem_cons_self _ _)
    have htail := fun q hq => hall q (List.mem_cons_of_mem _ hq)
    simp only [cover_best_match.searchLoop]
    cases hs : search p with
    | error e => exact ih htail
    | ok results =>
      rw [hs] at hp
      simp only [hp, List.isEmpty_nil, if_true]
      exact ih htail

/-! ## Claims -/

/-- C1 (amended).  The winner of a resolution is only guaranteed maximal
within its own tier's cap: in `fetch_best_cover_for_record` the selected
candidate belongs to, and score-dominates, the resolved list built from the
first 8 filter-surviving candidates of the winning tier (candidates beyond
the cap are never consulted); in `discogs_fetch_and_score_candidates` the
head of the returned list score-dominates every returned scored candidate. -/
theorem c1_winner_scope :
    ∀ (release : Int → Except Unit Item) (req : String) (record : RecordRow)
      (allowed : List Item) (c : Item)
      (http : Spec → Except Unit app_main.SearchJs) (details : Int → Except Unit Item)
      (row : RecordRow) (out : List (Int × Nat)),
      (cover_best_match.tier_selection release req record allowed = some c →
        c ∈ cover_best_match.resolveList release req (allowed.take 8) ∧
        ∀ x ∈ cover_best_match.resolveList release req (allowed.take 8),
          cover_best_match.score_candidate x record ≤
            cover_best_match.score_candidate c record) ∧
      (app_main.discogs_fetch_and_score_candidates http details row = .ok out →
        match out with
        | [] => True
        | p :: _ => ∀ q ∈ out, q.2 ≤ p.2) := by
  intro release req record allowed c http details row out
  constructor
  · intro h
    exact ⟨pickBest_mem h, pickBest_max h⟩
  · intro h
    obtain ⟨l, rfl⟩ := dfasc_loop_ok_sorted http details row (app_main.country_pref row)
      (app_main.discogs_query_plan_for_row row) [] out h
    cases hs : app_main.sortScoredDesc l with
    | nil => exact trivial
    | cons p rest =>
      intro q hq
      have hq2 : q ∈ app_main.sortScoredDesc l := by rw [hs]; exact hq
      exact ssort_desc_head_ge Prod.snd l p rest hs q ((mem_ssortBy _ q l).mp hq2)

/-- C1 counterexample.  Nine candidates survive the filter in the attempted
tier; the ninth carries an image and scores 8, the returned winner scores 0:
the winner does not have the maximum score among all constraint-satisfying
candidates seen. -/
theorem c1_counterexample :
    cover_best_match.fetch_best_cover_for_record cx_search cx_releaseFail cx_rec =
      .ok (some cx_plain) ∧
    cx_img ∈ cx_items9 ∧
    cover_best_match.candidate_allowed cx_img (cover_best_match.country_pref cx_rec) = true ∧
    cover_best_match.score_candidate cx_plain cx_rec <
      cover_best_match.score_candidate cx_img cx_rec :=
  ⟨by with_unfolding_all rfl, by decide, by decide, by decide⟩

/-- C1 witness. -/
theorem c1_witness :
    (cx_plain ∈ cover_best_match.resolveList cx_releaseFail "US" ([cx_plain].take 8) ∧
     ∀ x ∈ cover_best_match.resolveList cx_releaseFail "US" ([cx_plain].take 8),
       cover_best_match.score_candidate x cx_rec ≤
         cover_best_match.score_candidate cx_plain cx_rec) ∧
    (match ([((1 : Int), (10 : Nat))] : List (Int × Nat)) with
     | [] => True
     | p :: _ => ∀ q ∈ ([((1 : Int), (10 : Nat))] : List (Int × Nat)), q.2 ≤ p.2) :=
  ⟨(c1_winner_scope cx_releaseFail "US" cx_rec [cx_plain] cx_plain
      cx_httpOne cx_detailsOne cx_rowQ [((1 : Int), (10 : Nat))]).1
      (by with_unfolding_all rfl),
   (c1_winner_scope cx_releaseFail "US" cx_rec [cx_plain] cx_plain
      cx_httpOne cx_detailsOne cx_rowQ [((1 : Int), (10 : Nat))]).2
      (by with_unfolding_all rfl)⟩

/-- C2 (amended).  In `discogs_query_plan` (cover_best_match.py) the first
emitted QuerySpec does contain the barcode.  In `discogs_query_plan_for_row`
(main.py) the barcode tier is emitted last, so the first spec omits the
barcode whenever a loose-text or catalogue-number tier exists (see the
counterexample). -/
theorem c2_barcode_first (record : RecordRow) (h : _nz record.barcode ≠ "") :
    ∃ p, (cover_best_match.discogs_query_plan record).head? = some p ∧
      ("barcode", QVal.str (_nz record.barcode)) ∈ p := by
  refine ⟨cover_best_match.barcode_spec record, ?_, ?_⟩
  · unfold cover_best_match.discogs_query_plan cover_best_match.raw_plan
    rw [if_pos h, List.cons_append]
    simp [cover_best_match.dedupGo]
  · simp [cover_best_match.barcode_spec, List.mem_append]

/-- C2 counterexample.  A row with artist "a" and barcode "123": the first
spec of `discogs_query_plan_for_row` is the loose-text spec and carries no
barcode parameter. -/
theorem c2_counterexample :
    _nz cx_row2.barcode = "123" ∧
    (app_main.discogs_query_plan_for_row cx_row2).head? =
      some [("q", QVal.str "a"), ("type", QVal.str "release"),
            ("format", QVal.str "LP"), ("per_page", QVal.int 50)] ∧
    ("barcode", QVal.str "123") ∉
      [("q", QVal.str "a"), ("type", QVal.str "release"),
       ("format", QVal.str "LP"), ("per_page", QVal.int 50)] :=
  ⟨by with_unfolding_all rfl, by with_unfolding_all rfl, by decide⟩

/-- C2 witness. -/
theorem c2_witness :
    _nz cx_row2.barcode ≠ "" ∧
    ∃ p, (cover_best_match.discogs_query_plan cx_row2).head? = some p ∧
      ("barcode", QVal.str (_nz cx_row2.barcode)) ∈ p :=
  ⟨by decide, c2_barcode_first cx_row2 (by decide)⟩

/-- C3 (amended).  `cover_best_match.candidate_allowed` does fail closed: a
candidate with a missing or blank country never passes a non-empty required
country.  But `candidate_allowed_search` in main.py fails OPEN on a missing
country (see the counterexample). -/
theorem c3_missing_country_fail_closed (item : Item) (required : String)
    (h1 : required ≠ "") (h2 : _nz item.country = "") :
    cover_best_match.candidate_allowed item required = false := by
  simp only [cover_best_match.candidate_allowed, h2]
  rw [if_pos (Ne.symm h1)]

/-- C3 counterexample.  A candidate reporting no country at all passes
`candidate_allowed_search` with required country "US". -/
theorem c3_counterexample :
    _nz cx_itemNoCountry.country = "" ∧
    app_main.candidate_allowed_search cx_itemNoCountry (some "US") = true :=
  ⟨by with_unfolding_all rfl, by with_unfolding_all rfl⟩

/-- C3 witness. -/
theorem c3_witness :
    ("US" ≠ "" ∧ _nz cx_itemNoCountry.country = "") ∧
    cover_best_match.candidate_allowed cx_itemNoCountry "US" = false :=
  ⟨⟨by decide, by with_unfolding_all rfl⟩,
   c3_missing_country_fail_closed cx_itemNoCountry "US" (by decide)
     (by with_unfolding_all rfl)⟩

/-- C4 (amended).  `cover_best_match.candidate_allowed` and
`candidate_allowed_release` do reject any candidate whose format-token set
lacks "lp", regardless of country.  But `candidate_allowed_search` runs a
substring test on the joined format string and also accepts "vinyl", so a
token set without "lp" can pass it (see the counterexample). -/
theorem c4_lp_token_required (item detail : Item) (required : String)
    (rc : Option String)
    (h1 : (cover_best_match._fmt_list item).contains "lp" = false)
    (h2 : (app_main._fmt_tokens_from_release_detail detail).contains "lp" = false) :
    cover_best_match.candidate_allowed item required = false ∧
    app_main.candidate_allowed_release detail rc = false := by
  constructor
  · simp only [cover_best_match.candidate_allowed]
    split
    · rfl
    · exact h1
  · simp only [app_main.candidate_allowed_release, h2]
    rw [if_pos (by simp)]

/-- C4 counterexample.  Format-token set `{vinyl}` has no "lp" token, yet the
candidate passes `candidate_allowed_search` (country matching). -/
theorem c4_counterexample :
    (cover_best_match._fmt_list cx_itemVinyl).contains "lp" = false ∧
    app_main.candidate_allowed_search cx_itemVinyl (some "US") = true :=
  ⟨by with_unfolding_all rfl, by with_unfolding_all rfl⟩

/-- C4 witness. -/
theorem c4_witness :
    ((cover_best_match._fmt_list cx_itemVinyl).contains "lp" = false ∧
     (app_main._fmt_tokens_from_release_detail cx_itemVinyl).contains "lp" = false) ∧
    cover_best_match.candidate_allowed cx_itemVinyl "US" = false ∧
    app_main.candidate_allowed_release cx_itemVinyl (some "US") = false :=
  ⟨⟨by with_unfolding_all rfl, by with_unfolding_all rfl⟩,
   c4_lp_token_required cx_itemVinyl cx_itemVinyl "US" (some "US")
     (by with_unfolding_all rfl) (by with_unfolding_all rfl)⟩

/-- C5 (amended).  In `cover_best_match.score_candidate`, turning a proper
substring artist match into an exact match (all other fields fixed) strictly
increases the score (12 → 25).  In main.py's `score_candidate` the same change
leaves the score unchanged, because a substring hit already earns the full 30
(see the counterexample). -/
theorem c5_exact_artist_strict (item : Item) (record : RecordRow)
    (h1 : pyLower (_nz record.artist) ≠ "")
    (h2 : pyLower (_nz item.artist) ≠ "")
    (h3 : strIn (pyLower (_nz record.artist)) (pyLower (_nz item.artist)) = true)
    (h4 : pyLower (_nz item.artist) ≠ pyLower (_nz record.artist)) :
    cover_best_match.score_candidate item record <
      cover_best_match.score_candidate { item with artist := record.artist } record := by
  simp only [cover_best_match.score_candidate]
  dsimp only
  have halb : cover_best_match._fmt_list { item with artist := record.artist } =
      cover_best_match._fmt_list item := rfl
  rw [halb,
      if_neg (fun hh : pyLower (_nz item.artist) ≠ "" ∧ pyLower (_nz record.artist) ≠ "" ∧
        pyLower (_nz item.artist) = pyLower (_nz record.artist) => h4 hh.2.2),
      if_pos (show pyLower (_nz item.artist) ≠ "" ∧ pyLower (_nz record.artist) ≠ "" ∧
        strIn (pyLower (_nz record.artist)) (pyLower (_nz item.artist)) = true from ⟨h2, h1, h3⟩),
      if_pos (show pyLower (_nz record.artist) ≠ "" ∧ pyLower (_nz record.artist) ≠ "" ∧ True from
        ⟨h1, h1, trivial⟩)]
  omega

/-- C5 counterexample.  Record artist "abc"; a candidate whose joined artist
string "abcd" strictly contains it scores 30 in main.py's `score_candidate`,
and so does the candidate whose artist is exactly "abc": the change does not
strictly increase the score there. -/
theorem c5_counterexample :
    strIn (pyLower (_nz cx_rowA.artist))
        (pyLower (pyJoin ", " ((cx_detailSub.artists.getD []).map (fun a => _nz a.name)))) = true ∧
    pyLower (pyJoin ", " ((cx_detailSub.artists.getD []).map (fun a => _nz a.name))) ≠
      pyLower (_nz cx_rowA.artist) ∧
    cx_detailExact = { cx_detailSub with artists := some [{ name := some "abc" }] } ∧
    app_main.score_candidate cx_detailSub cx_rowA = 30 ∧
    app_main.score_candidate cx_detailExact cx_rowA = 30 :=
  ⟨by decide, by decide, by with_unfolding_all rfl,
   by with_unfolding_all rfl, by with_unfolding_all rfl⟩

/-- C5 witness. -/
theorem c5_witness :
    (pyLower (_nz (RecordRow.artist { artist := some "a" })) ≠ "" ∧
     pyLower (_nz (Item.artist { artist := some "ab" })) ≠ "" ∧
     strIn (pyLower (_nz (RecordRow.artist { artist := some "a" })))
       (pyLower (_nz (Item.artist { artist := some "ab" }))) = true ∧
     pyLower (_nz (Item.artist { artist := some "ab" })) ≠
       pyLower (_nz (RecordRow.artist { artist := some "a" }))) ∧
    cover_best_match.score_candidate { artist := some "ab" } { artist := some "a" } <
      cover_best_match.score_candidate
        { ({ artist := some "ab" } : Item) with artist := RecordRow.artist { artist := some "a" } }
        { artist := some "a" } :=
  ⟨⟨by decide, by decide, by decide, by decide⟩,
   c5_exact_artist_strict { artist := some "ab" } { artist := some "a" }
     (by decide) (by decide) (by decide) (by decide)⟩

/-- C6 (amended).  Main.py's `score_candidate` does award the 10 year points
whenever both years are present and within ±1 of each other.  The
`cover_best_match` scorer instead awards its 10 year points only on exact
(string) equality of the years, so 1958 vs 1959 earns nothing there (see the
counterexample). -/
theorem c6_year_within_one (detail : Item) (row : RecordRow) (ya yb : Int)
    (h1 : row.year = some ya) (h2 : detail.year = some yb)
    (h3 : (ya - yb).natAbs ≤ 1) :
    app_main.score_candidate detail row =
      app_main.score_candidate { detail with year := none } row + 10 := by
  simp only [app_main.score_candidate, h1, h2]
  dsimp only
  rw [if_pos h3]

/-- C6 counterexample.  Candidate year 1958 is within ±1 of record year 1959,
yet `cover_best_match.score_candidate` awards nothing (score 0); only the
exact year 1959 earns the 10-point bonus. -/
theorem c6_counterexample :
    ((1959 : Int) - 1958).natAbs ≤ 1 ∧
    cover_best_match.score_candidate cx_item1958 cx_rec1959 = 0 ∧
    cover_best_match.score_candidate cx_item1959 cx_rec1959 = 10 :=
  ⟨by decide, by with_unfolding_all rfl, by with_unfolding_all rfl⟩

/-- C6 witness. -/
theorem c6_witness :
    (cx_rec1959.year = some 1959 ∧ cx_item1958.year = some 1958 ∧
     ((1959 : Int) - 1958).natAbs ≤ 1) ∧
    app_main.score_candidate cx_item1958 cx_rec1959 =
      app_main.score_candidate { cx_item1958 with year := none } cx_rec1959 + 10 :=
  ⟨⟨rfl, rfl, by decide⟩,
   c6_year_within_one cx_item1958 cx_rec1959 1959 1958 rfl rfl (by decide)⟩

/-- C7 (confirmed).  Whatever the similarity oracle, query and store, when
`cover_match` returns a result its `confident` flag is true exactly when the
best score is at least 0.80 and its lead over the runner-up is at least
0.10. -/
theorem c7_confidence_rule (sim : List ℚ → List ℚ → ℚ) (query : List ℚ)
    (store : List (Int × List (List ℚ))) (r : app_main.MatchResult)
    (h : app_main.cover_match sim query store = .ok r) :
    (r.confident = true) ↔
      ((4 : ℚ)/5 ≤ r.best_score ∧
       (1 : ℚ)/10 ≤ r.best_score - r.second_best_score) := by
  simp only [app_main.cover_match] at h
  split at h
  · cases h
  · split at h
    · cases h
    · injection h with h1
      rw [← h1]
      simp [Bool.and_eq_true, decide_eq_true_eq]

/-- C7 witness. -/
theorem c7_witness :
    app_main.cover_match cx_sim [1] cx_store =
      .ok ⟨1, 9/10, 0, 9/10, true⟩ ∧
    ((app_main.MatchResult.confident ⟨1, 9/10, 0, 9/10, true⟩ = true) ↔
      ((4 : ℚ)/5 ≤ app_main.MatchResult.best_score ⟨1, 9/10, 0, 9/10, true⟩ ∧
       (1 : ℚ)/10 ≤ app_main.MatchResult.best_score ⟨1, 9/10, 0, 9/10, true⟩ -
         app_main.MatchResult.second_best_score ⟨1, 9/10, 0, 9/10, true⟩)) :=
  ⟨by with_unfolding_all rfl,
   c7_confidence_rule cx_sim [1] cx_store ⟨1, 9/10, 0, 9/10, true⟩
     (by with_unfolding_all rfl)⟩

/-- The rebuild loop with no limit tallies each outcome independently. -/
theorem rebuild_loop_none_counts :
    ∀ (rows : List app_main.RowOutcome) (p s e : Nat),
      app_main.rebuild_loop none rows p s e =
        (p + rows.count .okEmbed, s + rows.count .noImage, e + rows.count .embedErr) := by
  intro rows
  induction rows with
  | nil => intro p s e; simp [app_main.rebuild_loop]
  | cons r rest ih =>
    intro p s e
    cases r <;> simp [app_main.rebuild_loop, ih, List.count_cons, beq_iff_eq] <;> omega

/-- C8 (confirmed).  With no limit, the rebuild visits every record: records
without a usable image are tallied in `skipped_no_image`, records whose
embedding step raises are tallied in `errors`, the rest in `processed`; in
particular the 10-record scenario (3 imageless, 1 raising) yields (6, 3, 1). -/
theorem c8_rebuild_counters :
    (∀ rows : List app_main.RowOutcome,
      app_main.api_rebuild_cover_embeddings none rows =
        (rows.count .okEmbed, rows.count .noImage, rows.count .embedErr)) ∧
    app_main.api_rebuild_cover_embeddings none cx_scenario10 = (6, 3, 1) :=
  ⟨fun rows => by
      simpa [app_main.api_rebuild_cover_embeddings] using rebuild_loop_none_counts rows 0 0 0,
   by decide⟩

/-- C9 (amended).  In `fetch_best_cover_for_record` a failing search call
does skip the tier and continue, and when every tier raises or yields no
allowed candidate (and no explicit release id is set) the result is `.ok
none`, not an exception.  But in `discogs_fetch_and_score_candidates` the
search call is not guarded, so a failing tier propagates the provider error
(see the counterexample). -/
theorem c9_error_tiers_skipped (search : Spec → Except Unit (List Item))
    (release : Int → Except Unit Item) (record : RecordRow) :
    (∀ (p : Spec) (rest : List Spec) (e : Unit), search p = .error e →
      cover_best_match.searchLoop search release
          (cover_best_match.country_pref record) record (p :: rest) =
        cover_best_match.searchLoop search release
          (cover_best_match.country_pref record) record rest) ∧
    (cover_best_match.relIdOf record = none →
      (∀ p ∈ cover_best_match.discogs_query_plan record,
        match search p with
        | .error _ => True
        | .ok results =>
          results.filter (fun it =>
            cover_best_match.candidate_allowed it
              (cover_best_match.country_pref record)) = []) →
      cover_best_match.fetch_best_cover_for_record search release record = .ok none) := by
  constructor
  · intro p rest e he
    simp only [cover_best_match.searchLoop, he]
  · intro hid hall
    simp only [cover_best_match.fetch_best_cover_for_record, hid]
    exact searchLoop_nothing search release _ record _ hall

/-- C9 counterexample.  One loose-text tier exists for the row, its search
raises, and `discogs_fetch_and_score_candidates` propagates the provider
error instead of returning the empty not-found result. -/
theorem c9_counterexample :
    (app_main.discogs_query_plan_for_row cx_rowQ).length = 1 ∧
    app_main.discogs_fetch_and_score_candidates cx_httpFail cx_detailsOne cx_rowQ =
      .error () :=
  ⟨by with_unfolding_all rfl, by with_unfolding_all rfl⟩

/-- C9 witness. -/
theorem c9_witness :
    cover_best_match.searchLoop cx_searchFail cx_releaseFail
        (cover_best_match.country_pref cx_rowQ) cx_rowQ [[]] =
      cover_best_match.searchLoop cx_searchFail cx_releaseFail
        (cover_best_match.country_pref cx_rowQ) cx_rowQ [] ∧
    cover_best_match.fetch_best_cover_for_record cx_searchFail cx_releaseFail cx_rowQ =
      .ok none :=
  ⟨(c9_error_tiers_skipped cx_searchFail cx_releaseFail cx_rowQ).1 [] [] () rfl,
   (c9_error_tiers_skipped cx_searchFail cx_releaseFail cx_rowQ).2 rfl
     (fun _ _ => trivial)⟩

/-- C10 (confirmed).  A tier's selection is computed from the first 8
filter-surviving candidates only: survivors beyond position 8 never change
the outcome, and the selected candidate always comes from the resolved list
of the first 8. -/
theorem c10_only_first_eight (release : Int → Except Unit Item) (req : String)
    (record : RecordRow) (allowed extra : List Item) (h8 : 8 ≤ allowed.length) :
    cover_best_match.tier_selection release req record (allowed ++ extra) =
      cover_best_match.tier_selection release req record allowed ∧
    (match cover_best_match.tier_selection release req record allowed with
     | some c => c ∈ cover_best_match.resolveList release req (allowed.take 8)
     | none => True) := by
  constructor
  · simp only [cover_best_match.tier_selection]
    rw [List.take_append_of_le_length h8]
  · cases hsel : cover_best_match.tier_selection release req record allowed with
    | none => exact trivial
    | some c => exact pickBest_mem hsel

/-- C10 witness. -/
theorem c10_witness :
    8 ≤ (List.replicate 8 cx_plain).length ∧
    cover_best_match.tier_selection cx_releaseFail "US" cx_rec
        (List.replicate 8 cx_plain ++ [cx_img]) =
      cover_best_match.tier_selection cx_releaseFail "US" cx_rec
        (List.replicate 8 cx_plain) :=
  ⟨by decide,
   (c10_only_first_eight cx_releaseFail "US" cx_rec (List.replicate 8 cx_plain) [cx_img]
     (by decide)).1⟩
